import Mathlib

/-!
Verification development for the EKSInfraCDK repository core:
the SSM parameter-path builder (`src/config/path_builder.py`), the
configuration loader (`src/config/config.py`), the deployment driver
(`src/app.py`) and the infrastructure pipeline assembler
(`src/pipelines/infra_pipeline.py`), shallowly embedded in Lean.

Modelling conventions:
- YAML documents (`yaml.safe_load` results) are modelled by the inductive
  `Yaml`: nested string-keyed mappings whose leaves are scalars, with
  scalars modelled as strings.
- Python exceptions are modelled by the `PyErr` error type carried in
  `Except`: `KeyError` (raised by indexing a `dict` with an absent key),
  `TypeError` (raised by indexing a non-`dict` scalar with a string key),
  and `ValueError` with its message string.
- Python's `'/'.join(...)` is `joinSlash`; string truthiness filters
  (`if key`) become filtering out the empty string.
-/

namespace EKSInfraCDK

/-- A parsed YAML document: nested string-keyed mappings with string
scalars at the leaves (scalars are modelled as strings). -/
inductive Yaml where
  | str (s : String)
  | map (entries : List (String × Yaml))

/-- Python exception classes observable in `path_builder.py`:
`KeyError` (with the offending key), `TypeError`, and `ValueError`
(with its message). -/
inductive PyErr where
  | keyError (k : String)
  | typeError
  | valueError (msg : String)
deriving DecidableEq

/-- Python's `'/'.join(xs)`. -/
def joinSlash : List String → String
  | [] => ""
  | [x] => x
  | x :: y :: xs => x ++ "/" ++ joinSlash (y :: xs)

/-- The string each element of a list contributes to `joinSlash` of a list
that continues past it: `joinPre l` is `joinSlash l ++ "/"` for non-empty
`l` and `""` for `[]` (helper for reasoning about `joinSlash`). -/
def joinPre : List String → String
  | [] => ""
  | x :: xs => x ++ "/" ++ joinPre xs

/-- Python `path[key]` for a parsed-YAML node `path` and a string `key`:
on a `dict`, the value (or `KeyError`); on a scalar, `TypeError`
(string indices must be integers). -/
def yamlIndex : Yaml → String → Except PyErr Yaml
  | .map entries, k =>
      match entries.lookup k with
      | some v => .ok v
      | none => .error (.keyError k)
  | .str _, _ => .error .typeError

/-- The lookup loop of `get_ssm_path` (`for key in keys: path = path[key]`):
walks the key sequence through the configuration tree, stopping at the
first exception. -/
def walkKeys : Yaml → List String → Except PyErr Yaml
  | y, [] => .ok y
  | y, k :: ks =>
      match yamlIndex y k with
      | .ok v => walkKeys v ks
      | .error e => .error e

/-- Model of `PathBuilder` (`src/config/path_builder.py`): tenant id, environment
name, and the parsed path-specification document (`_load_config` result). -/
structure PathBuilder where
  tenant_id : String
  environment : String
  config : Yaml

/-- Method `PathBuilder._param_global_base(*keys)`:
`'/' + '/'.join([key for key in list(keys) if key])`. -/
def param_global_base (keys : List String) : String :=
  "/" ++ joinSlash (keys.filter (fun k => k != ""))

/-- Method `PathBuilder._param_base(self, *keys)`:
`'/' + '/'.join([key for key in [self.tenant_id] + list(keys) if key])`. -/
def param_base (b : PathBuilder) (keys : List String) : String :=
  "/" ++ joinSlash ((b.tenant_id :: keys).filter (fun k => k != ""))

/-- Method `PathBuilder._param_env_base(self, *keys)`:
`self._param_base(self.environment, *keys)`. -/
def param_env_base (b : PathBuilder) (keys : List String) : String :=
  param_base b (b.environment :: keys)

/-- Method `PathBuilder.get_ssm_path(self, *keys, global_param=False)`: walk the
keys through the configuration; a `KeyError` is caught and re-raised as
`ValueError` with the joined key path; landing on a `dict` raises
`ValueError` (not caught by the `except KeyError` clause); a `TypeError`
from indexing a scalar propagates uncaught; otherwise the scalar segment
is formatted through `_param_global_base` or `_param_env_base`. -/
def get_ssm_path (b : PathBuilder) (keys : List String)
    (global_param : Bool) : Except PyErr String :=
  match walkKeys b.config keys with
  | .error (.keyError _) =>
      .error (.valueError ("Invalid parameter path: " ++ joinSlash keys))
  | .error e => .error e
  | .ok (.map _) =>
      .error (.valueError ("Invalid parameter path: " ++ joinSlash keys
        ++ ", expected a string but found a dictionary"))
  | .ok (.str s) =>
      .ok (if global_param then param_global_base [s] else param_env_base b [s])

/-- Method `PathBuilder.get_ssm_path_all(self)`: `self._param_env_base("*")`. -/
def get_ssm_path_all (b : PathBuilder) : String :=
  param_env_base b ["*"]

/-- Python `s.split('/')` on the character list of a path string
(helper for stating "literal path segment"). -/
def splitSlashChars : List Char → List (List Char)
  | [] => [[]]
  | c :: cs =>
      if c = '/' then [] :: splitSlashChars cs
      else
        match splitSlashChars cs with
        | g :: gs => (c :: g) :: gs
        | [] => [[c]]

/-- The literal path segments of a path string: Python `path.split('/')`. -/
def pathSegments (s : String) : List String :=
  (splitSlashChars s.toList).map String.mk

/-- Whether a `get_ssm_path` outcome is a raised `ValueError`
(the implementation class of the spec's `PathResolutionError`). -/
def isValueError : Except PyErr String → Bool
  | .error (.valueError _) => true
  | _ => false

/-! Configuration loader (`src/config/config.py`). The directory listing
(`os.listdir`) together with the parsed content of each file is modelled as
a list of (filename, parsed document) pairs in listing order. -/

/-- Python `s.endswith(suffix)`. -/
def pyEndsWith (s suffix : String) : Bool :=
  List.isSuffixOf suffix.toList s.toList

/-- Python `os.path.splitext(filename)[0]`: the filename with its extension
stripped; the extension starts at the last dot, except that leading dots
are part of the root. -/
def splitextRoot (s : String) : String :=
  let cs := s.toList
  let lead := cs.takeWhile (fun c => c == '.')
  let rest := cs.dropWhile (fun c => c == '.')
  if rest.contains '.' then
    String.mk (lead ++ ((rest.reverse.dropWhile (fun c => c != '.')).drop 1).reverse)
  else s

/-- Python dict assignment `d[k] = v`: replaces the value in place if the
key is present, else appends the binding. -/
def dictInsert (d : List (String × Yaml)) (k : String) (v : Yaml) :
    List (String × Yaml) :=
  if d.any (fun entry => entry.1 == k) then
    d.map (fun entry => if entry.1 == k then (entry.1, v) else entry)
  else d ++ [(k, v)]

/-- Function `load_configurations()` (`src/config/config.py`): for each file of the
directory listing whose name ends with `.yaml` or `.yml`, insert its parsed
content under the filename with the extension stripped. -/
def load_configurations (listing : List (String × Yaml)) :
    List (String × Yaml) :=
  listing.foldl
    (fun configurations f =>
      if pyEndsWith f.1 ".yaml" || pyEndsWith f.1 ".yml" then
        dictInsert configurations (splitextRoot f.1) f.2
      else configurations)
    []

/-! Deployment driver (`src/app.py`). -/

/-- The per-(tenant, environment) configuration record that `app.py` reads
from `environments[tenant_id][target_env]`. -/
structure TenantConfig where
  account : String
  region : String
  cluster_admin_role_name : String
  enable_manual_approval : Bool
  products_purchased : List String
  applications : Yaml

/-- The parsed `environments` document: tenant id to environment name to
tenant configuration (Python dicts as association lists with unique keys,
in insertion order). -/
abbrev Environments := List (String × List (String × TenantConfig))

/-- Outcome of the driver dispatch in `app.py`: deploy the toolchain stack,
deploy the tenant infrastructure pipeline, or raise the invalid-arguments
`ValueError` carrying the enumeration of valid pairs. -/
inductive DriverResult where
  | toolchain
  | infraPipeline (resource_pfx : String) (cfg : TenantConfig)
  | invalidArgs (pairs : List String)

/-- One line of the valid-pair enumeration:
`f"Tenant: {tenant}, Environment: {env}"`. -/
def renderPair (tenant env : String) : String :=
  "Tenant: " ++ tenant ++ ", Environment: " ++ env

/-- The `valid_envs` list comprehension of `app.py`: one rendered line per
(tenant, environment) pair of the `environments` tree, in tree order. -/
def valid_envs (environments : Environments) : List String :=
  environments.flatMap (fun te => te.2.map (fun ec => renderPair te.1 ec.1))

/-- The (tenant, environment) pairs present in the `environments` tree. -/
def treePairs (environments : Environments) : List (String × String) :=
  environments.flatMap (fun te => te.2.map (fun ec => (te.1, ec.1)))

/-- The driver dispatch of `app.py`: `if not tenant_id` selects the
toolchain stack (both a missing and an empty tenant id are falsy);
otherwise a (tenant, environment) pair present in the tree selects the
infrastructure pipeline with resource prefix
`f"{tenant_id}-{target_env}"`; otherwise the `ValueError` enumerating
`valid_envs` is raised. -/
def appMain (environments : Environments)
    (tenant_id target_env : Option String) : DriverResult :=
  match tenant_id with
  | none => .toolchain
  | some t =>
    if t = "" then .toolchain
    else
      match environments.lookup t with
      | none => .invalidArgs (valid_envs environments)
      | some env_dict =>
        match target_env with
        | none => .invalidArgs (valid_envs environments)
        | some e =>
          match env_dict.lookup e with
          | none => .invalidArgs (valid_envs environments)
          | some cfg => .infraPipeline (t ++ "-" ++ e) cfg

/-! Pipeline assembler (`src/pipelines/infra_pipeline.py`). The pipeline
structure built by `InfraPipelineStack.__init__` is modelled as the ordered
sequence of `add_stage`/`add_wave` calls, each wave carrying its `add_pre`
and `add_post` steps, plus the notification resources created after
`build_pipeline()`. -/

/-- A pipeline step: a `CodeBuildStep` with its name, commands and
environment-variable bindings, or a `ManualApprovalStep`. -/
inductive Step where
  | codeBuildStep (name : String) (commands : List String)
      (envVars : List (String × String))
  | manualApprovalStep (name comment : String)

/-- An element of the pipeline sequence: one of the three stages
(`NetworkStage`, `InfraStage`, `PostDeployStage`) with its construct id, or
a wave with its name and its pre/post steps. -/
inductive PipelineItem where
  | networkStage (name : String)
  | infraStage (name : String)
  | postDeployStage (name : String)
  | wave (name : String) (pre : List Step) (post : List Step)

/-- The four lifecycle events of the notification rule. -/
def notificationEvents : List String :=
  ["codepipeline-pipeline-pipeline-execution-started",
   "codepipeline-pipeline-pipeline-execution-failed",
   "codepipeline-pipeline-pipeline-execution-succeeded",
   "codepipeline-pipeline-manual-approval-needed"]

/-- The notification wiring created when manual approval is enabled: the
SNS topic's email subscriptions and the notification rule over the four
lifecycle events. -/
structure NotificationBinding where
  events : List String
  email_subscriptions : List String
  rule_name : String

/-- The assembled pipeline: the synth step, the ordered stage/wave
sequence, and the notification bindings. -/
structure Pipeline where
  synth : Step
  items : List PipelineItem
  notifications : List NotificationBinding

/-- Props `InfraPipelineStackProps` (trimmed to the fields that determine the
assembled pipeline structure; `resource_pfx` is the source's
resource_prefix field, renamed, and `map_migrated_tag` is
`project_tags["map-migrated"]`). -/
structure InfraPipelineStackProps where
  cluster_admin_role_name : String
  deployment_account : String
  email_subscriptions : List String
  enable_manual_approval : Bool
  karpenter_version : String
  kubernetes_version : String
  path_builder : PathBuilder
  map_migrated_tag : String
  resource_pfx : String
  target_account : String
  target_region : String
  target_env : String
  tenant_id : String

/-- The `build_role_arn` helper of `InfraPipelineStack.__init__`. -/
def build_role_arn (resource_pfx account role_name : String) : String :=
  "arn:aws:iam::" ++ account ++ ":role/" ++ resource_pfx ++ "-" ++ role_name

/-- Constructor `InfraPipelineStack.__init__` (`src/pipelines/infra_pipeline.py`):
assembles the pipeline in source order — Network stage, Infra stage,
deploy-eks-cluster wave, Post-deploy stage, config-eks-cluster wave, then
(iff `enable_manual_approval`) the approval wave with its
`ManualApprovalStep`, then the deploy-apps-into-cluster wave, and finally
(iff `enable_manual_approval`) the SNS topic with its email subscriptions
and the notification rule. Each `get_ssm_path` call may raise, aborting
assembly. -/
def assemblePipeline (p : InfraPipelineStackProps) : Except PyErr Pipeline := do
  let cluster_access_role_arn :=
    build_role_arn p.resource_pfx p.target_account "eksctl-codebuild-role"
  let synth : Step := .codeBuildStep "Synth"
    ["npm install -g aws-cdk", "pip install -r requirements.txt",
     "cdk synth -c tenant_id=$tenant_id -c target_env=$target_env"]
    [("tenant_id", p.tenant_id), ("target_env", p.target_env)]
  let oidc ← get_ssm_path p.path_builder ["eks", "oidc-id"] false
  let deployStep : Step := .codeBuildStep "deploy-eks-cluster-step"
    ["cd scripts/cluster_config", "chmod +x deploy_eks_cluster.sh",
     "./deploy_eks_cluster.sh"]
    [("AWS_REGION", p.target_region),
     ("CLUSTER_ACCESS_ROLE_ARN", cluster_access_role_arn),
     ("CLUSTER_ADMIN_ROLE_NAME", p.cluster_admin_role_name),
     ("CLUSTER_NAME", p.resource_pfx ++ "-cluster"),
     ("CODE_BUILD_ROLE_NAME", p.resource_pfx ++ "-eksctl-codebuild-role"),
     ("KARPENTER_VERSION", p.karpenter_version),
     ("KUBERNETES_VERSION", p.kubernetes_version),
     ("MAP_MIGRATED", p.map_migrated_tag),
     ("OIDC_ID_PARAM", oidc),
     ("RESOURCE_PREFIX", p.resource_pfx),
     ("TARGET_ACCOUNT_ID", p.target_account)]
  let external_dns_role_arn :=
    build_role_arn p.resource_pfx p.deployment_account "externaldns-role"
  let external_dns_sa_role_arn :=
    build_role_arn p.resource_pfx p.target_account "externaldns-sa-role"
  let external_secrets_sa_role_arn :=
    build_role_arn p.resource_pfx p.target_account "secrets-manager-sa-role"
  let acm ← get_ssm_path p.path_builder ["acm", "certificate-arn"] false
  let efs ← get_ssm_path p.path_builder ["efs", "file-system-id"] false
  let configStep : Step := .codeBuildStep "config-eks-cluster-step"
    ["cd scripts/cluster_config", "chmod +x config_eks_cluster.sh",
     "./config_eks_cluster.sh"]
    [("ACM_CERTIFICATE_ARN", acm),
     ("AWS_REGION", p.target_region),
     ("CLUSTER_ACCESS_ROLE_ARN", cluster_access_role_arn),
     ("CLUSTER_NAME", p.resource_pfx ++ "-cluster"),
     ("EFS_FILE_SYSTEM_PARAM", efs),
     ("EXTERNAL_DNS_ROLE", external_dns_role_arn),
     ("EXTERNAL_DNS_SA_ROLE", external_dns_sa_role_arn),
     ("EXTERNAL_SECRETS_SA_ROLE", external_secrets_sa_role_arn),
     ("KARPENTER_VERSION", p.karpenter_version),
     ("KUBERNETES_VERSION", p.kubernetes_version),
     ("RESOURCE_PREFIX", p.resource_pfx),
     ("TARGET_ACCOUNT_ID", p.target_account)]
  let acmApps ← get_ssm_path p.path_builder ["acm", "certificate-arn"] false
  let appsStep : Step := .codeBuildStep "deploy-apps-into-cluster-step"
    ["cd scripts/cluster_config", "chmod +x deploy_apps_into_cluster.sh",
     "./deploy_apps_into_cluster.sh"]
    [("ACM_CERTIFICATE_ARN", acmApps),
     ("AWS_REGION", p.target_region),
     ("CLUSTER_ACCESS_ROLE_ARN", cluster_access_role_arn),
     ("CLUSTER_NAME", p.resource_pfx ++ "-cluster"),
     ("RESOURCE_PREFIX", p.resource_pfx),
     ("TARGET_ACCOUNT_ID", p.target_account)]
  pure
    { synth := synth
      items :=
        [.networkStage (p.resource_pfx ++ "-network"),
         .infraStage (p.resource_pfx ++ "-infra"),
         .wave "deploy-eks-cluster-wave" [] [deployStep],
         .postDeployStage (p.resource_pfx ++ "-post-deploy"),
         .wave "config-eks-cluster-wave" [] [configStep]]
        ++ (if p.enable_manual_approval then
              [.wave "eks-cluster-approval-wave"
                [.manualApprovalStep "eks-cluster-approval-step" "Approve?"] []]
            else [])
        ++ [.wave "deploy-apps-into-cluster-wave" [] [appsStep]]
      notifications :=
        if p.enable_manual_approval then
          [{ events := notificationEvents
             email_subscriptions := p.email_subscriptions
             rule_name := p.resource_pfx ++ "-notification-rule" }]
        else [] }

/-- Whether a step is a `ManualApprovalStep`. -/
def Step.isManualApproval : Step → Bool
  | .manualApprovalStep _ _ => true
  | _ => false

/-- Whether a pipeline item is the Network stage. -/
def PipelineItem.isNetwork : PipelineItem → Bool
  | .networkStage _ => true
  | _ => false

/-- Whether a pipeline item is the Infra stage. -/
def PipelineItem.isInfra : PipelineItem → Bool
  | .infraStage _ => true
  | _ => false

/-- Whether a pipeline item is the Post-deploy stage. -/
def PipelineItem.isPostDeploy : PipelineItem → Bool
  | .postDeployStage _ => true
  | _ => false

/-- Whether a pipeline item is a wave with the given name. -/
def isWaveNamed (n : String) : PipelineItem → Bool
  | .wave m _ _ => m == n
  | _ => false

/-- Whether a pipeline item is a wave containing a `ManualApprovalStep`
(the approval gate). -/
def PipelineItem.hasApproval : PipelineItem → Bool
  | .wave _ pre post =>
      pre.any Step.isManualApproval || post.any Step.isManualApproval
  | _ => false

/-- The number of `ManualApprovalStep`s across all waves of the pipeline
sequence. -/
def approvalStepCount (items : List PipelineItem) : Nat :=
  (items.map (fun i =>
    match i with
    | .wave _ pre post =>
        pre.countP Step.isManualApproval + post.countP Step.isManualApproval
    | _ => 0)).sum

/-- A path-specification document resolving every logical key that
`InfraPipelineStack.__init__` requests (sample input for witnesses). -/
def samplePathSpec : Yaml := .map
  [("eks", .map [("oidc-id", .str "eks-oidc-id")]),
   ("acm", .map [("certificate-arn", .str "acm-certificate-arn")]),
   ("efs", .map [("file-system-id", .str "efs-file-system-id")])]

/-- Sample assembly inputs with manual approval enabled. -/
def sampleProps : InfraPipelineStackProps :=
  { cluster_admin_role_name := "cluster-admin"
    deployment_account := "111111111111"
    email_subscriptions := ["ops@example.com", "lead@example.com"]
    enable_manual_approval := true
    karpenter_version := "v0.32.1"
    kubernetes_version := "1.28"
    path_builder := ⟨"acme", "dev", samplePathSpec⟩
    map_migrated_tag := "mig-1"
    resource_pfx := "acme-dev"
    target_account := "222222222222"
    target_region := "us-east-1"
    target_env := "dev"
    tenant_id := "acme" }

/-- Sample assembly inputs with manual approval disabled. -/
def samplePropsNoApproval : InfraPipelineStackProps :=
  { sampleProps with enable_manual_approval := false }

/-- The pipeline assembled from `sampleProps`. -/
def samplePipeline : Pipeline :=
  ((assemblePipeline sampleProps).toOption).getD
    ⟨Step.manualApprovalStep "" "", [], []⟩

/-- The pipeline assembled from `samplePropsNoApproval`. -/
def samplePipelineNoApproval : Pipeline :=
  ((assemblePipeline samplePropsNoApproval).toOption).getD
    ⟨Step.manualApprovalStep "" "", [], []⟩

/-- Sample `environments` tree (sample input for witnesses). -/
def sampleEnvironments : Environments :=
  [("acme",
    [("dev", ⟨"222222222222", "us-east-1", "cluster-admin", true, [], .map []⟩),
     ("prod", ⟨"333333333333", "us-east-1", "cluster-admin", true, [], .map []⟩)])]

/-! Helper lemmas about `joinSlash`. -/

theorem joinSlash_append_singleton (l : List String) (x : String) :
    joinSlash (l ++ [x]) = joinPre l ++ x := by
  induction l with
  | nil => simp [joinSlash, joinPre]
  | cons a l ih =>
    cases l with
    | nil => simp [joinSlash, joinPre, String.append_assoc]
    | cons b l' =>
      calc joinSlash ((a :: b :: l') ++ [x])
          = a ++ "/" ++ joinSlash (b :: (l' ++ [x])) := rfl
        _ = a ++ "/" ++ (joinPre (b :: l') ++ x) := by
            rw [List.cons_append] at ih; rw [ih]
        _ = joinPre (a :: b :: l') ++ x := by
            simp [joinPre, String.append_assoc]

theorem param_env_base_singleton (b : PathBuilder) (s : String) :
    param_env_base b [s] =
      "/" ++ joinSlash ((b.tenant_id :: b.environment :: [s]).filter
        (fun k => k != "")) := rfl

/-- Formatting a non-empty segment with non-empty tenant and environment. -/
theorem param_env_base_all_nonempty (b : PathBuilder) (s : String)
    (ht : b.tenant_id ≠ "") (he : b.environment ≠ "") (hs : s ≠ "") :
    param_env_base b [s]
      = "/" ++ b.tenant_id ++ "/" ++ b.environment ++ "/" ++ s := by
  rw [param_env_base_singleton]
  simp [List.filter_cons, bne_iff_ne, ht, he, hs, joinSlash, String.append_assoc]

/-- Formatting via `_param_global_base` of a single segment is plain `'/' + segment`
(also when the segment is empty, since `'/'.join([]) = ''`). -/
theorem param_global_base_singleton (s : String) :
    param_global_base [s] = "/" ++ s := by
  by_cases hs : s = ""
  · subst hs; simp [param_global_base, List.filter_cons, joinSlash]
  · simp [param_global_base, List.filter_cons, bne_iff_ne, hs, joinSlash]

/-- Formatting via `_param_env_base` of a single non-empty segment splits off the segment
from the (tenant, environment) base: the wildcard path and every resolved
path share the base `'/' + join(filter([tenant_id, environment])) + sep`. -/
theorem param_env_base_decomp (b : PathBuilder) (s : String) (hs : s ≠ "") :
    param_env_base b [s] =
      ("/" ++ joinPre ([b.tenant_id, b.environment].filter (fun k => k != "")))
        ++ s := by
  rw [param_env_base_singleton]
  have h1 : (b.tenant_id :: b.environment :: [s]).filter (fun k => k != "")
      = [b.tenant_id, b.environment].filter (fun k => k != "") ++ [s] := by
    have h2 : b.tenant_id :: b.environment :: [s]
        = [b.tenant_id, b.environment] ++ [s] := rfl
    rw [h2, List.filter_append]
    simp [List.filter_cons, bne_iff_ne, hs]
  rw [h1, joinSlash_append_singleton, String.append_assoc]

/-- C1 counterexample: for `PathBuilder` instances with non-empty tenant
`"acme"` and environment `"dev"`: (a) when the path specification maps key
`"k"` to the segment `"acme"`, `get_ssm_path("k", global_param=True)`
succeeds with `"/acme"`, which does contain the tenant id as a literal path
segment; and (b) when it maps key `"k0"` to the empty segment,
`get_ssm_path("k0")` succeeds with `"/acme/dev"`, which does not begin with
`"/acme/dev/"` (its first ten characters are not that prefix). -/
theorem c1_counterexample :
    (("acme" : String) ≠ "" ∧ ("dev" : String) ≠ "") ∧
    (get_ssm_path (PathBuilder.mk "acme" "dev"
        (Yaml.map [("k", Yaml.str "acme")])) ["k"] true = .ok "/acme" ∧
      (PathBuilder.mk "acme" "dev"
          (Yaml.map [("k", Yaml.str "acme")])).tenant_id
        ∈ pathSegments "/acme") ∧
    (get_ssm_path (PathBuilder.mk "acme" "dev"
        (Yaml.map [("k0", Yaml.str "")])) ["k0"] false = .ok "/acme/dev" ∧
      "/acme/dev".toList.take 10 ≠ "/acme/dev/".toList) :=
  ⟨⟨by decide, by decide⟩, ⟨rfl, by decide⟩, ⟨rfl, by decide⟩⟩

/-- C1 (amended): for a `PathBuilder` with non-empty tenant and environment
and a key sequence resolving to a scalar segment `s`, the global path is
exactly `"/" ++ s` (so it begins with `"/"`, and contains the tenant or
environment as a literal segment only insofar as `s` itself does), and when
`s` is non-empty the non-global path is exactly
`"/{tenant_id}/{environment}/" ++ s`, hence begins with
`"/{tenant_id}/{environment}/"`. -/
theorem c1_amended_path_scoping (t e : String) (cfg : Yaml)
    (keys : List String) (s : String) (ht : t ≠ "") (he : e ≠ "")
    (h : walkKeys cfg keys = .ok (.str s)) :
    get_ssm_path ⟨t, e, cfg⟩ keys true = .ok ("/" ++ s) ∧
    (s ≠ "" →
      get_ssm_path ⟨t, e, cfg⟩ keys false
        = .ok ("/" ++ t ++ "/" ++ e ++ "/" ++ s)) := by
  constructor
  · simp [get_ssm_path, h, param_global_base_singleton]
  · intro hs
    simp only [get_ssm_path, h]
    have h2 := param_env_base_all_nonempty ⟨t, e, cfg⟩ s ht he hs
    simpa using h2

/-- C1 witness: concrete instance of the amended path-scoping theorem. -/
theorem c1_witness :
    get_ssm_path ⟨"acme", "dev", Yaml.map [("k", Yaml.str "seg")]⟩ ["k"] true
        = .ok ("/" ++ "seg") ∧
    ("seg" : String) ≠ "" ∧
    get_ssm_path ⟨"acme", "dev", Yaml.map [("k", Yaml.str "seg")]⟩ ["k"] false
        = .ok ("/" ++ "acme" ++ "/" ++ "dev" ++ "/" ++ "seg") := by
  have h := c1_amended_path_scoping "acme" "dev"
    (Yaml.map [("k", Yaml.str "seg")]) ["k"] "seg"
    (by decide) (by decide) rfl
  exact ⟨h.1, by decide, h.2 (by decide)⟩

/-- C5: whenever the key walk terminates on a sub-mapping, `get_ssm_path`
(with either value of `global_param`) fails with the `ValueError`
("expected a string but found a dictionary") carrying the joined key path,
and in particular never returns a stringified mapping. -/
theorem c5_ambiguity_rejection (b : PathBuilder) (keys : List String)
    (entries : List (String × Yaml)) (g : Bool)
    (h : walkKeys b.config keys = .ok (.map entries)) :
    get_ssm_path b keys g =
      .error (.valueError ("Invalid parameter path: " ++ joinSlash keys
        ++ ", expected a string but found a dictionary")) := by
  simp [get_ssm_path, h]

/-- C5 witness: resolving `["a"]` against a specification whose `"a"` entry
is a sub-mapping fails with the dictionary `ValueError`. -/
theorem c5_witness :
    get_ssm_path ⟨"acme", "dev", Yaml.map [("a", Yaml.map [])]⟩ ["a"] false =
      .error (.valueError ("Invalid parameter path: " ++ joinSlash ["a"]
        ++ ", expected a string but found a dictionary")) :=
  c5_ambiguity_rejection ⟨"acme", "dev", Yaml.map [("a", Yaml.map [])]⟩
    ["a"] [] false rfl

/-- C6 counterexample: with path specification `{"a": "x"}`, the key
sequence `["a", "b"]` walks onto the scalar `"x"` and then indexes it, so
Python raises `TypeError`, which the `except KeyError` clause does not
catch: the failure is not a `ValueError` (`PathResolutionError`-class) and
carries no key path, contradicting the claim for the "intermediate node is
not a mapping" case. -/
theorem c6_counterexample :
    get_ssm_path ⟨"acme", "dev", Yaml.map [("a", Yaml.str "x")]⟩
        ["a", "b"] false = .error .typeError ∧
    isValueError (get_ssm_path ⟨"acme", "dev", Yaml.map [("a", Yaml.str "x")]⟩
        ["a", "b"] false) = false := ⟨rfl, rfl⟩

/-- C6 (amended): a key absent from the mapping at its level makes the walk
raise `KeyError`, which `get_ssm_path` converts to a `ValueError` carrying
the joined requested key path; but when the walk indexes a scalar
(an intermediate node that is not a mapping) the resulting `TypeError`
propagates uncaught, without the key path. -/
theorem c6_amended_error_classes (b : PathBuilder) (keys : List String)
    (g : Bool) :
    (∀ k, walkKeys b.config keys = .error (.keyError k) →
      get_ssm_path b keys g =
        .error (.valueError ("Invalid parameter path: " ++ joinSlash keys))) ∧
    (walkKeys b.config keys = .error .typeError →
      get_ssm_path b keys g = .error .typeError) := by
  constructor
  · intro k hk
    simp [get_ssm_path, hk]
  · intro ht
    simp [get_ssm_path, ht]

/-- C6 witness: concrete instance of the amended error-class theorem for an
absent key. -/
theorem c6_witness :
    get_ssm_path ⟨"acme", "dev", Yaml.map [("a", Yaml.str "x")]⟩ ["zz"] false
      = .error (.valueError ("Invalid parameter path: " ++ joinSlash ["zz"])) :=
  (c6_amended_error_classes ⟨"acme", "dev", Yaml.map [("a", Yaml.str "x")]⟩
    ["zz"] false).1 "zz" rfl

/-- C8: segment formatting drops empty components: with an empty tenant_id
the non-global path for a non-empty resolved segment is exactly
`"/{environment}/{segment}"` (and `"/{environment}"` when the segment is
empty), and with an empty environment it is exactly
`"/{tenant_id}/{segment}"` (resp. `"/{tenant_id}"`) — the empty component
is omitted entirely and no empty `//` segment appears at the boundary. -/
theorem c8_empty_component_drop (t e : String) (cfg : Yaml)
    (keys : List String) (s : String)
    (h : walkKeys cfg keys = .ok (.str s)) :
    (e ≠ "" → s ≠ "" →
      get_ssm_path ⟨"", e, cfg⟩ keys false = .ok ("/" ++ e ++ "/" ++ s)) ∧
    (e ≠ "" → s = "" →
      get_ssm_path ⟨"", e, cfg⟩ keys false = .ok ("/" ++ e)) ∧
    (t ≠ "" → s ≠ "" →
      get_ssm_path ⟨t, "", cfg⟩ keys false = .ok ("/" ++ t ++ "/" ++ s)) ∧
    (t ≠ "" → s = "" →
      get_ssm_path ⟨t, "", cfg⟩ keys false = .ok ("/" ++ t)) := by
  refine ⟨?_, ?_, ?_, ?_⟩
  · intro he hs
    simp [get_ssm_path, h, param_env_base, param_base, List.filter_cons,
      bne_iff_ne, he, hs, joinSlash, String.append_assoc]
  · intro he hs
    subst hs
    simp [get_ssm_path, h, param_env_base, param_base, List.filter_cons,
      bne_iff_ne, he, joinSlash]
  · intro ht hs
    simp [get_ssm_path, h, param_env_base, param_base, List.filter_cons,
      bne_iff_ne, ht, hs, joinSlash, String.append_assoc]
  · intro ht hs
    subst hs
    simp [get_ssm_path, h, param_env_base, param_base, List.filter_cons,
      bne_iff_ne, ht, joinSlash]

/-- C8 witness: concrete instances with an empty tenant and an empty
environment. -/
theorem c8_witness :
    get_ssm_path ⟨"", "dev", Yaml.map [("k", Yaml.str "seg")]⟩ ["k"] false
        = .ok ("/" ++ "dev" ++ "/" ++ "seg") ∧
    get_ssm_path ⟨"acme", "", Yaml.map [("k", Yaml.str "seg")]⟩ ["k"] false
        = .ok ("/" ++ "acme" ++ "/" ++ "seg") := by
  have h := c8_empty_component_drop "acme" "dev"
    (Yaml.map [("k", Yaml.str "seg")]) ["k"] "seg" rfl
  exact ⟨h.1 (by decide) (by decide), h.2.2.1 (by decide) (by decide)⟩

/-- C10: every non-global path resolved to a non-empty segment lies under
the wildcard namespace of `get_ssm_path_all`: the wildcard path is
`pre ++ "*"` and the resolved path is `pre ++ segment` for the same
base `pre`, so the resolved path begins with the wildcard path with its
trailing `"*"` removed. -/
theorem c10_wildcard_namespace (b : PathBuilder) (keys : List String)
    (s : String) (h : walkKeys b.config keys = .ok (.str s)) (hs : s ≠ "") :
    ∃ pre, get_ssm_path_all b = pre ++ "*" ∧
      get_ssm_path b keys false = .ok (pre ++ s) := by
  refine ⟨"/" ++ joinPre ([b.tenant_id, b.environment].filter
    (fun k => k != "")), ?_, ?_⟩
  · exact param_env_base_decomp b "*" (by decide)
  · simp only [get_ssm_path, h]
    rw [param_env_base_decomp b s hs]
    simp

/-- C10 witness: concrete instance of the wildcard-namespace theorem. -/
theorem c10_witness :
    ∃ pre,
      get_ssm_path_all ⟨"acme", "dev", Yaml.map [("k", Yaml.str "seg")]⟩
          = pre ++ "*" ∧
      get_ssm_path ⟨"acme", "dev", Yaml.map [("k", Yaml.str "seg")]⟩ ["k"]
          false = .ok (pre ++ "seg") :=
  c10_wildcard_namespace ⟨"acme", "dev", Yaml.map [("k", Yaml.str "seg")]⟩
    ["k"] "seg" rfl (by decide)

/-- Structure of every successfully assembled pipeline: the fixed
stage/wave sequence with the approval wave present iff
`enable_manual_approval`, and the notification binding likewise. -/
theorem assemblePipeline_ok_items (p : InfraPipelineStackProps)
    (spec : Pipeline) (h : assemblePipeline p = .ok spec) :
    ∃ e1 e2 e3 : List (String × String),
      spec.items =
        [.networkStage (p.resource_pfx ++ "-network"),
         .infraStage (p.resource_pfx ++ "-infra"),
         .wave "deploy-eks-cluster-wave" []
           [.codeBuildStep "deploy-eks-cluster-step"
             ["cd scripts/cluster_config", "chmod +x deploy_eks_cluster.sh",
              "./deploy_eks_cluster.sh"] e1],
         .postDeployStage (p.resource_pfx ++ "-post-deploy"),
         .wave "config-eks-cluster-wave" []
           [.codeBuildStep "config-eks-cluster-step"
             ["cd scripts/cluster_config", "chmod +x config_eks_cluster.sh",
              "./config_eks_cluster.sh"] e2]]
        ++ (if p.enable_manual_approval then
              [.wave "eks-cluster-approval-wave"
                [.manualApprovalStep "eks-cluster-approval-step" "Approve?"]
                []]
            else [])
        ++ [.wave "deploy-apps-into-cluster-wave" []
             [.codeBuildStep "deploy-apps-into-cluster-step"
               ["cd scripts/cluster_config",
                "chmod +x deploy_apps_into_cluster.sh",
                "./deploy_apps_into_cluster.sh"] e3]] ∧
      spec.notifications =
        (if p.enable_manual_approval then
          [{ events := notificationEvents
             email_subscriptions := p.email_subscriptions
             rule_name := p.resource_pfx ++ "-notification-rule" }]
        else []) := by
  rw [assemblePipeline] at h
  cases h1 : get_ssm_path p.path_builder ["eks", "oidc-id"] false with
  | error e =>
    rw [h1] at h
    simp [Bind.bind, Except.bind] at h
  | ok oidc =>
    rw [h1] at h
    cases h2 : get_ssm_path p.path_builder ["acm", "certificate-arn"] false with
    | error e =>
      rw [h2] at h
      simp [Bind.bind, Except.bind] at h
    | ok acm =>
      rw [h2] at h
      cases h3 : get_ssm_path p.path_builder ["efs", "file-system-id"] false with
      | error e =>
        rw [h3] at h
        simp [Bind.bind, Except.bind] at h
      | ok efs =>
        rw [h3] at h
        simp only [Bind.bind, Except.bind, Pure.pure, Except.pure,
          Except.ok.injEq] at h
        subst h
        exact ⟨_, _, _, rfl, rfl⟩

/-- C2: in every pipeline produced by `InfraPipelineStack`, the Network
stage comes before the Infra stage, then the deploy-eks-cluster wave, the
Post-deploy stage, the config-eks-cluster wave and the
deploy-apps-into-cluster wave, in that order of positions; and when
`enable_manual_approval` is true the approval gate (the wave containing the
`ManualApprovalStep`) sits strictly between the config-eks-cluster wave and
the deploy-apps-into-cluster wave. -/
theorem c2_stage_wave_order (p : InfraPipelineStackProps) (spec : Pipeline)
    (h : assemblePipeline p = .ok spec) :
    spec.items.findIdx PipelineItem.isNetwork
        < spec.items.findIdx PipelineItem.isInfra ∧
    spec.items.findIdx PipelineItem.isInfra
        < spec.items.findIdx (isWaveNamed "deploy-eks-cluster-wave") ∧
    spec.items.findIdx (isWaveNamed "deploy-eks-cluster-wave")
        < spec.items.findIdx PipelineItem.isPostDeploy ∧
    spec.items.findIdx PipelineItem.isPostDeploy
        < spec.items.findIdx (isWaveNamed "config-eks-cluster-wave") ∧
    spec.items.findIdx (isWaveNamed "config-eks-cluster-wave")
        < spec.items.findIdx (isWaveNamed "deploy-apps-into-cluster-wave") ∧
    (p.enable_manual_approval = true →
      spec.items.findIdx (isWaveNamed "config-eks-cluster-wave")
          < spec.items.findIdx PipelineItem.hasApproval ∧
      spec.items.findIdx PipelineItem.hasApproval
          < spec.items.findIdx (isWaveNamed "deploy-apps-into-cluster-wave")) := by
  obtain ⟨e1, e2, e3, hitems, -⟩ := assemblePipeline_ok_items p spec h
  rw [hitems]
  cases hem : p.enable_manual_approval <;>
    simp [hem, List.findIdx_cons, PipelineItem.isNetwork, PipelineItem.isInfra,
      PipelineItem.isPostDeploy, PipelineItem.hasApproval, isWaveNamed,
      Step.isManualApproval]

/-- C2 witness: the ordering invariant at a concrete successful assembly
with manual approval enabled. -/
theorem c2_witness :
    samplePipeline.items.findIdx PipelineItem.isNetwork
        < samplePipeline.items.findIdx PipelineItem.isInfra ∧
    samplePipeline.items.findIdx PipelineItem.isInfra
        < samplePipeline.items.findIdx (isWaveNamed "deploy-eks-cluster-wave") ∧
    samplePipeline.items.findIdx (isWaveNamed "deploy-eks-cluster-wave")
        < samplePipeline.items.findIdx PipelineItem.isPostDeploy ∧
    samplePipeline.items.findIdx PipelineItem.isPostDeploy
        < samplePipeline.items.findIdx (isWaveNamed "config-eks-cluster-wave") ∧
    samplePipeline.items.findIdx (isWaveNamed "config-eks-cluster-wave")
        < samplePipeline.items.findIdx
            (isWaveNamed "deploy-apps-into-cluster-wave") ∧
    (sampleProps.enable_manual_approval = true →
      samplePipeline.items.findIdx (isWaveNamed "config-eks-cluster-wave")
          < samplePipeline.items.findIdx PipelineItem.hasApproval ∧
      samplePipeline.items.findIdx PipelineItem.hasApproval
          < samplePipeline.items.findIdx
              (isWaveNamed "deploy-apps-into-cluster-wave")) :=
  c2_stage_wave_order sampleProps samplePipeline rfl

/-- C3: a successfully assembled pipeline contains no
`ManualApprovalStep` and no notification binding when
`enable_manual_approval` is false, and exactly one of each when it is
true. -/
theorem c3_gate_conditionality (p : InfraPipelineStackProps)
    (spec : Pipeline) (h : assemblePipeline p = .ok spec) :
    (p.enable_manual_approval = false →
      approvalStepCount spec.items = 0 ∧ spec.notifications = []) ∧
    (p.enable_manual_approval = true →
      approvalStepCount spec.items = 1 ∧ spec.notifications.length = 1) := by
  obtain ⟨e1, e2, e3, hitems, hnot⟩ := assemblePipeline_ok_items p spec h
  rw [hitems, hnot]
  constructor <;> intro hem <;>
    simp [hem, approvalStepCount, Step.isManualApproval, List.countP_cons]

/-- C3 witness: a concrete successful assembly with manual approval
disabled, instantiating the gate-conditionality theorem. -/
theorem c3_witness :
    (samplePropsNoApproval.enable_manual_approval = false →
      approvalStepCount samplePipelineNoApproval.items = 0 ∧
      samplePipelineNoApproval.notifications = []) ∧
    (samplePropsNoApproval.enable_manual_approval = true →
      approvalStepCount samplePipelineNoApproval.items = 1 ∧
      samplePipelineNoApproval.notifications.length = 1) :=
  c3_gate_conditionality samplePropsNoApproval samplePipelineNoApproval rfl

/-- C4: for a non-empty tenant id whose (tenant, environment) pair is not
present in the `environments` tree, the driver raises the invalid-arguments
error, and its enumeration is exactly the list of pairs present in the
tree, each rendered as a `"Tenant: X, Environment: Y"` string — no more and
no fewer. -/
theorem c4_validation_completeness (environments : Environments)
    (t : String) (target_env : Option String) (ht : t ≠ "")
    (hnp : ∀ e d, target_env = some e → environments.lookup t = some d →
      d.lookup e = none) :
    appMain environments (some t) target_env
        = .invalidArgs (valid_envs environments) ∧
    valid_envs environments
        = (treePairs environments).map (fun pr => renderPair pr.1 pr.2) := by
  constructor
  · cases hl : environments.lookup t with
    | none => simp [appMain, ht, hl]
    | some d =>
      cases target_env with
      | none => simp [appMain, ht, hl]
      | some e =>
        have he := hnp e d rfl hl
        simp [appMain, ht, hl, he]
  · simp only [valid_envs, treePairs, List.map_flatMap, List.map_map,
      Function.comp_def]

/-- C4 witness: requesting the absent tenant `"zz"` against a tree holding
`acme/dev` and `acme/prod` yields the error with exactly those two rendered
pairs. -/
theorem c4_witness :
    appMain sampleEnvironments (some "zz") (some "dev")
        = .invalidArgs (valid_envs sampleEnvironments) ∧
    valid_envs sampleEnvironments
        = (treePairs sampleEnvironments).map (fun pr => renderPair pr.1 pr.2) :=
  c4_validation_completeness sampleEnvironments "zz" (some "dev")
    (by decide)
    (by
      intro e d he hd
      rw [show List.lookup "zz" sampleEnvironments = none from rfl] at hd
      exact Option.noConfusion hd)

/-- C7 counterexample: a directory listing holding `x.yaml` and then
`x.yml` with different parseable contents loads to a single document under
key `"x"` holding only the second file's content — the first document is
silently dropped (last-load-wins), contradicting the claim that such a
collision is never silently resolved. -/
theorem c7_counterexample :
    load_configurations [("x.yaml", Yaml.str "docA"), ("x.yml", Yaml.str "docB")]
        = [("x", Yaml.str "docB")] ∧
    ("x", Yaml.str "docA") ∉
      load_configurations
        [("x.yaml", Yaml.str "docA"), ("x.yml", Yaml.str "docB")] := by
  refine ⟨rfl, ?_⟩
  intro hm
  rw [show load_configurations
      [("x.yaml", Yaml.str "docA"), ("x.yml", Yaml.str "docB")]
      = [("x", Yaml.str "docB")] from rfl] at hm
  simp at hm

/-- C7 (amended): `load_configurations` merges each document under its
filename with the extension stripped, and when two files' names differ only
in extension the later file in listing order silently overwrites the
earlier one under their shared key (last-load-wins): for any two parsed
documents, loading `x.yaml` then `x.yml` yields only the second document
under key `"x"`. -/
theorem c7_amended_last_load_wins (a b : Yaml) :
    load_configurations [("x.yaml", a), ("x.yml", b)] = [("x", b)] := rfl

/-- C9: an empty (falsy, not merely missing) tenant id always selects the
toolchain assembly path, for every `environments` tree and every value of
`target_env`: the tenant pipeline is never assembled and the
invalid-arguments error is never raised. -/
theorem c9_empty_tenant_toolchain (environments : Environments)
    (target_env : Option String) :
    appMain environments (some "") target_env = .toolchain := rfl

end EKSInfraCDK
